import Mathlib

/-!
Shallow embedding of `src/tools/Add_Geomark_URLs/ArcGISPro/add_geomark_py3.py`
(function `add_geomark_url`).

The script walks an `arcpy.da.UpdateCursor` over a feature class with the
field list `["GeomarkURL", "SHAPE@"]`.  For each row whose `GeomarkURL`
value is `None`, `""` or `" "` it either writes the marker `"Null geometry"`
(when the shape is null) or POSTs the geometry's WKT to the Geomark web
service and writes the outcome, then calls `cursor.updateRow(row)`.

We model a row as its `GeomarkURL` value (`Option String`, `none` being the
database NULL), its geometry as the WKT text it would serialize to
(`Option String`, `none` being a null shape), plus the remaining attributes
of the feature (opaque to the script, carried for frame reasoning).

The network is an oracle `http : Nat → PostResult` consulted once per POST,
indexed by the number of POSTs made so far: `PostResult.exn` models the
call raising (connection error / timeout), `PostResult.ok code url` models a
`requests.Response` with that `status_code` and resolved `url`.

The Python local variable `r` survives across loop iterations and is unbound
before the first successful call; we model it as the `Option Response` field
`rvar` of the loop state, `none` meaning unbound.  Reading it while unbound
raises `NameError`, which the loop does not catch, so the step function is
`Except`-valued.
-/

set_option autoImplicit false

namespace AddGeomark

/-- A `requests.Response`, restricted to the two attributes the script
reads: `status_code` and the resolved `url`. -/
structure Response where
  status_code : Nat
  url : String
  deriving Repr, DecidableEq

/-- Outcome of one `session.post` call: either a response object or the
call raising an exception (connection error, timeout, ...). -/
inductive PostResult where
  | ok (status_code : Nat) (url : String)
  | exn
  deriving Repr, DecidableEq

/-- One feature record as seen through the update cursor: the `GeomarkURL`
attribute (`none` = NULL), the geometry rendered as WKT (`none` = null
shape), and the feature's other attributes, which the cursor does not
expose. -/
structure Row where
  geomarkURL : Option String
  geom : Option String
  attrs : List String
  deriving Repr, DecidableEq

/-- The condition "null, empty, or consists only of whitespace", as the
spec words the skip test.  Stated from the spec's words, to be compared
with the script's own test `blank`. -/
def whitespaceBlank : Option String → Bool
  | none => true
  | some s => s.toList.all (fun c => c.isWhitespace)

/-- Mutable state threaded through the `for row in cursor` loop: the Python
variable `r` (`none` = not yet bound), the `update_count` counter, and the
number of HTTP POSTs performed so far (the index into the oracle). -/
structure LoopState where
  rvar : Option Response
  update_count : Nat
  reqCount : Nat
  deriving Repr, DecidableEq

/-- Initial loop state: `r` unbound, `update_count = 0`, no requests yet. -/
def initState : LoopState := ⟨none, 0, 0⟩

/-- The fixed request endpoint of the Geomark web service. -/
def post_url : String := "https://apps.gov.bc.ca/pub/geomark/geomarks/new"

/-- The test `exist_url is None or exist_url in ["", " "]` from line 61 of
the script: the condition under which a record is processed. -/
def blank : Option String → Bool
  | none => true
  | some s => s = "" || s = " "

/-- The form payload built for each POST (line 68).  `none` models the
Python `None` values in the dict. -/
def payload (srid : Nat) (geom_wkt : String) : List (String × Option String) :=
  [("bufferSegments", some "8"), ("body", some geom_wkt), ("bufferMetres", none),
   ("callback", none), ("failureRedirectUrl", none), ("bufferJoin", some "ROUND"),
   ("bufferMitreLimit", some "5"), ("bufferCap", some "ROUND"), ("redirectUrl", none),
   ("resultFormat", none), ("format", some "wkt"), ("srid", some (toString srid)),
   ("allowOverlap", some "false")]

/-- The marker written when the shape is null (line 64). -/
def nullGeometryMsg : String := "Null geometry"

/-- The marker written in the `except` clause (line 74). -/
def requestFailedMsg : String :=
  "Geomark Web Service request failed - try running the tool again"

/-- The marker written when the service answered 200 without redirecting
(line 79). -/
def couldNotCreateMsg : String := "Could not create Geomark URL for this geometry"

/-- The message written for a non-200 status (line 85), with the literal
status code interpolated as in the f-string. -/
def statusCodeMsg (code : Nat) : String :=
  "Geomark Web Service returned status code " ++ toString code ++
    "; try running the tool again"

/-- The `if r.status_code == 200: ... else: ...` block of lines 75-85,
executed on the current binding of `r`.  Returns the updated state and row.
Note the script reaches this block even when the POST just raised. -/
def statusBranch (s : LoopState) (row : Row) (r : Response) : LoopState × Row :=
  if r.status_code = 200 then
    if r.url = post_url then
      (s, { row with geomarkURL := some couldNotCreateMsg })
    else
      ({ s with update_count := s.update_count + 1 }, { row with geomarkURL := some r.url })
  else
    (s, { row with geomarkURL := some (statusCodeMsg r.status_code) })

/-- The body of `for row in cursor` (lines 59-86) for one record.

Returns `.ok (s, row, updated)` where `updated` records whether
`cursor.updateRow(row)` was invoked for this record, or `.error msg` when
the body raises past the loop (the `NameError` on the unbound `r`).

Translation notes: the `try`/`except` around the POST only guards the call
itself; the status check that follows runs unconditionally inside the
non-null-geometry branch, on whatever `r` is currently bound to. -/
def processRow (srid : Nat) (http : Nat → PostResult) (s : LoopState) (row : Row) :
    Except String (LoopState × Row × Bool) :=
  if blank row.geomarkURL then
    match row.geom with
    | none =>
      .ok (s, { row with geomarkURL := some nullGeometryMsg }, true)
    | some geom_wkt =>
      let _pl := payload srid geom_wkt
      let s1 : LoopState := { s with reqCount := s.reqCount + 1 }
      let afterTry : LoopState × Row :=
        match http s.reqCount with
        | .ok code url => ({ s1 with rvar := some ⟨code, url⟩ }, row)
        | .exn => (s1, { row with geomarkURL := some requestFailedMsg })
      match afterTry.1.rvar with
      | none => .error "NameError: name r is not defined"
      | some r =>
        let sr := statusBranch afterTry.1 afterTry.2 r
        .ok (sr.1, sr.2, true)
  else
    .ok (s, row, false)

/-- The cursor loop over the whole dataset.  Returns the final loop state,
the rows as persisted in the dataset paired with whether `updateRow` ran for
them, and `some msg` when an uncaught exception aborted the run (rows not
yet reached keep their input values and are not updated). -/
def runRows (srid : Nat) (http : Nat → PostResult) :
    LoopState → List Row → LoopState × List (Row × Bool) × Option String
  | s, [] => (s, [], none)
  | s, row :: rest =>
    match processRow srid http s row with
    | .error e => (s, (row, false) :: rest.map (fun r => (r, false)), some e)
    | .ok (s1, row1, upd) =>
      let t := runRows srid http s1 rest
      (t.1, (row1, upd) :: t.2.1, t.2.2)

/-- The record-processing phase of `add_geomark_url` (lines 52-89), started
with `r` unbound and both counters at zero.  Spatial-reference lookup and
field provisioning precede it and are modelled separately. -/
def add_geomark_url (srid : Nat) (http : Nat → PostResult) (rows : List Row) :
    LoopState × List (Row × Bool) × Option String :=
  runRows srid http initState rows

/-- A field of the dataset schema, restricted to what `AddField` sets:
name, type and length. -/
structure Field where
  name : String
  ftype : String
  length : Nat
  deriving Repr, DecidableEq

/-- Field provisioning (lines 45-50): collect the existing field names; if
`GeomarkURL` is absent append a TEXT field of length 100, otherwise leave
the schema alone. -/
def ensureGeomarkField (schema : List Field) : List Field :=
  let flist := schema.map Field.name
  if "GeomarkURL" ∈ flist then schema
  else schema ++ [{ name := "GeomarkURL", ftype := "TEXT", length := 100 }]

/-- An HTTP oracle is well formed when every response object it yields has
a non-blank resolved `url` (in `requests`, `Response.url` is the absolute
final URL of the request, never empty or a lone space). -/
def urlOk (http : Nat → PostResult) : Prop :=
  ∀ n code url, http n = PostResult.ok code url → url ≠ "" ∧ url ≠ " "

/-- Loop-state counterpart of `urlOk`: whatever `r` is currently bound to
has a non-blank resolved url. -/
def stateOk (s : LoopState) : Prop :=
  ∀ r, s.rvar = some r → r.url ≠ "" ∧ r.url ≠ " "

/-!  Helper lemmas about the per-record step. -/

/-- A record whose `GeomarkURL` value fails the line-61 test is returned
untouched and `updateRow` is not invoked for it. -/
theorem processRow_skip (srid : Nat) (http : Nat → PostResult) (s : LoopState)
    (row : Row) (h : blank row.geomarkURL = false) :
    processRow srid http s row = .ok (s, row, false) := by
  simp [processRow, h]

/-- A blank record with a null shape gets the `Null geometry` marker; the
loop state (in particular the request counter) is unchanged. -/
theorem processRow_nullgeom (srid : Nat) (http : Nat → PostResult) (s : LoopState)
    (row : Row) (hb : blank row.geomarkURL = true) (hg : row.geom = none) :
    processRow srid http s row =
      .ok (s, { row with geomarkURL := some nullGeometryMsg }, true) := by
  simp [processRow, hb, hg]

/-- A blank record whose POST returns a response: `r` is rebound to it, the
request counter advances, and the status block runs on the fresh response. -/
theorem processRow_post_ok (srid : Nat) (http : Nat → PostResult) (s : LoopState)
    (row : Row) (w : String) (code : Nat) (url : String)
    (hb : blank row.geomarkURL = true) (hg : row.geom = some w)
    (hr : http s.reqCount = PostResult.ok code url) :
    processRow srid http s row =
      .ok ((statusBranch ⟨some ⟨code, url⟩, s.update_count, s.reqCount + 1⟩ row ⟨code, url⟩).1,
        (statusBranch ⟨some ⟨code, url⟩, s.update_count, s.reqCount + 1⟩ row ⟨code, url⟩).2,
        true) := by
  simp [processRow, hb, hg, hr]

/-- A blank record whose POST raises while `r` is still unbound: the
`NameError` escapes the loop. -/
theorem processRow_post_exn_unbound (srid : Nat) (http : Nat → PostResult)
    (s : LoopState) (row : Row) (w : String)
    (hb : blank row.geomarkURL = true) (hg : row.geom = some w)
    (hr : http s.reqCount = PostResult.exn) (hv : s.rvar = none) :
    processRow srid http s row = .error "NameError: name r is not defined" := by
  simp [processRow, hb, hg, hr, hv]

/-- A blank record whose POST raises while `r` holds a stale response: the
failure marker is written and then overwritten by the status block applied
to the stale response. -/
theorem processRow_post_exn_stale (srid : Nat) (http : Nat → PostResult)
    (s : LoopState) (row : Row) (w : String) (r : Response)
    (hb : blank row.geomarkURL = true) (hg : row.geom = some w)
    (hr : http s.reqCount = PostResult.exn) (hv : s.rvar = some r) :
    processRow srid http s row =
      .ok ((statusBranch ⟨some r, s.update_count, s.reqCount + 1⟩
              { row with geomarkURL := some requestFailedMsg } r).1,
        (statusBranch ⟨some r, s.update_count, s.reqCount + 1⟩
              { row with geomarkURL := some requestFailedMsg } r).2,
        true) := by
  simp [processRow, hb, hg, hr, hv]

/-- The non-200 message is never the empty string. -/
theorem statusCodeMsg_ne_empty (code : Nat) : statusCodeMsg code ≠ "" := by
  intro h
  have hl := congrArg String.length h
  have h1 : ("Geomark Web Service returned status code " : String).length = 41 := by decide
  simp [statusCodeMsg, String.length_append, h1] at hl

/-- The non-200 message is never a lone space. -/
theorem statusCodeMsg_ne_space (code : Nat) : statusCodeMsg code ≠ " " := by
  intro h
  have hl := congrArg String.length h
  have h1 : ("Geomark Web Service returned status code " : String).length = 41 := by decide
  have h2 : (" " : String).length = 1 := by decide
  simp [statusCodeMsg, String.length_append, h1, h2] at hl
  omega

/-- The status block only writes the `GeomarkURL` slot of the row. -/
theorem statusBranch_frame (s : LoopState) (row : Row) (r : Response) :
    (statusBranch s row r).2.geom = row.geom ∧ (statusBranch s row r).2.attrs = row.attrs := by
  unfold statusBranch
  split
  · split <;> simp
  · simp

/-- The status block never rebinds `r`. -/
theorem statusBranch_rvar (s : LoopState) (row : Row) (r : Response) :
    (statusBranch s row r).1.rvar = s.rvar := by
  unfold statusBranch
  split
  · split <;> simp
  · simp

/-- Whenever the loop body completes for a record, only the `GeomarkURL`
slot of that record may have changed: geometry and the other attributes are
exactly those of the input row. -/
theorem processRow_frame (srid : Nat) (http : Nat → PostResult) (s : LoopState)
    (row : Row) (s2 : LoopState) (row2 : Row) (b : Bool)
    (h : processRow srid http s row = .ok (s2, row2, b)) :
    row2.geom = row.geom ∧ row2.attrs = row.attrs := by
  cases hb : blank row.geomarkURL with
  | false =>
    rw [processRow_skip srid http s row hb] at h
    simp at h
    obtain ⟨-, rfl, -⟩ := h
    exact ⟨rfl, rfl⟩
  | true =>
    cases hg : row.geom with
    | none =>
      rw [processRow_nullgeom srid http s row hb hg] at h
      simp at h
      obtain ⟨-, rfl, -⟩ := h
      exact ⟨by simpa using hg, rfl⟩
    | some w =>
      cases hr : http s.reqCount with
      | ok code url =>
        rw [processRow_post_ok srid http s row w code url hb hg hr] at h
        simp at h
        obtain ⟨-, rfl, -⟩ := h
        have hf := statusBranch_frame ⟨some ⟨code, url⟩, s.update_count, s.reqCount + 1⟩
          row ⟨code, url⟩
        exact ⟨hf.1.trans hg, hf.2⟩
      | exn =>
        cases hv : s.rvar with
        | none =>
          rw [processRow_post_exn_unbound srid http s row w hb hg hr hv] at h
          simp at h
        | some r =>
          rw [processRow_post_exn_stale srid http s row w r hb hg hr hv] at h
          simp at h
          obtain ⟨-, rfl, -⟩ := h
          have hf := statusBranch_frame ⟨some r, s.update_count, s.reqCount + 1⟩
            { row with geomarkURL := some requestFailedMsg } r
          refine ⟨?_, by simpa using hf.2⟩
          have h1 := hf.1
          simp only [] at h1
          exact h1.trans hg


theorem runRows_skip_getElem (srid : Nat) (http : Nat → PostResult) (rows : List Row) :
    ∀ (s : LoopState) (i : Nat) (row : Row), rows[i]? = some row →
      blank row.geomarkURL = false →
      ((runRows srid http s rows).2.1)[i]? = some (row, false) := by
  induction rows with
  | nil => intro s i row h _; simp at h
  | cons hd tl ih =>
    intro s i row h hnb
    cases i with
    | zero =>
      simp at h
      subst h
      simp [runRows, processRow_skip srid http s hd hnb]
    | succ i =>
      simp at h
      cases hp : processRow srid http s hd with
      | error e => simp [runRows, hp, h]
      | ok res =>
        obtain ⟨s1, row1, u⟩ := res
        simp [runRows, hp]
        exact ih s1 i row h hnb


theorem runRows_const_getElem (srid : Nat) (http : Nat → PostResult)
    (row row2 : Row) (b : Bool)
    (hconst : ∀ t, processRow srid http t row = .ok (t, row2, b)) (rows : List Row) :
    ∀ (s : LoopState) (i : Nat), rows[i]? = some row →
      (runRows srid http s rows).2.2 = none →
      ((runRows srid http s rows).2.1)[i]? = some (row2, b) := by
  induction rows with
  | nil => intro s i h _; simp at h
  | cons hd tl ih =>
    intro s i h hdone
    cases i with
    | zero =>
      simp at h
      subst h
      simp [runRows, hconst s]
    | succ i =>
      simp at h
      cases hp : processRow srid http s hd with
      | error e => simp [runRows, hp] at hdone
      | ok res =>
        obtain ⟨s1, row1, u⟩ := res
        simp [runRows, hp] at hdone ⊢
        exact ih s1 i h hdone

theorem blank_eq_false_iff (v : Option String) :
    blank v = false ↔ v ≠ none ∧ v ≠ some "" ∧ v ≠ some " " := by
  cases v with
  | none => simp [blank]
  | some s => simp [blank]

theorem statusBranch_nonblank (s : LoopState) (row : Row) (r : Response)
    (hu : r.url ≠ "" ∧ r.url ≠ " ") :
    blank (statusBranch s row r).2.geomarkURL = false := by
  unfold statusBranch
  split
  · split
    · simp [blank]
      decide
    · simp [blank, hu.1, hu.2]
  · simp [blank, statusCodeMsg_ne_empty, statusCodeMsg_ne_space]

theorem processRow_nonblank (srid : Nat) (http : Nat → PostResult) (s : LoopState)
    (row : Row) (s2 : LoopState) (row2 : Row) (b : Bool)
    (hurl : urlOk http) (hs : stateOk s)
    (h : processRow srid http s row = .ok (s2, row2, b)) :
    blank row2.geomarkURL = false ∧ stateOk s2 := by
  cases hb : blank row.geomarkURL with
  | false =>
    rw [processRow_skip srid http s row hb] at h
    simp at h
    obtain ⟨rfl, rfl, -⟩ := h
    exact ⟨hb, hs⟩
  | true =>
    cases hg : row.geom with
    | none =>
      rw [processRow_nullgeom srid http s row hb hg] at h
      simp at h
      obtain ⟨rfl, rfl, -⟩ := h
      refine ⟨by simp [blank, nullGeometryMsg], hs⟩
    | some w =>
      cases hr : http s.reqCount with
      | ok code url =>
        rw [processRow_post_ok srid http s row w code url hb hg hr] at h
        simp at h
        obtain ⟨rfl, rfl, -⟩ := h
        have hu : url ≠ "" ∧ url ≠ " " := hurl s.reqCount code url hr
        refine ⟨statusBranch_nonblank _ _ _ hu, ?_⟩
        intro r0 hr0
        rw [statusBranch_rvar] at hr0
        simp at hr0
        subst hr0
        exact hu
      | exn =>
        cases hv : s.rvar with
        | none =>
          rw [processRow_post_exn_unbound srid http s row w hb hg hr hv] at h
          simp at h
        | some r =>
          rw [processRow_post_exn_stale srid http s row w r hb hg hr hv] at h
          simp at h
          obtain ⟨rfl, rfl, -⟩ := h
          have hu : r.url ≠ "" ∧ r.url ≠ " " := hs r hv
          refine ⟨statusBranch_nonblank _ _ _ hu, ?_⟩
          intro r0 hr0
          rw [statusBranch_rvar] at hr0
          simp at hr0
          subst hr0
          exact hu

theorem runRows_nonblank (srid : Nat) (http : Nat → PostResult) (hurl : urlOk http)
    (rows : List Row) :
    ∀ (s : LoopState), stateOk s → (runRows srid http s rows).2.2 = none →
      ∀ p ∈ (runRows srid http s rows).2.1, blank p.1.geomarkURL = false := by
  induction rows with
  | nil => intro s _ _ p hp; simp [runRows] at hp
  | cons hd tl ih =>
    intro s hs hdone p hp
    cases hq : processRow srid http s hd with
    | error e => simp [runRows, hq] at hdone
    | ok res =>
      obtain ⟨s1, row1, u⟩ := res
      have hn := processRow_nonblank srid http s hd s1 row1 u hurl hs hq
      simp [runRows, hq] at hdone hp
      rcases hp with hp | hp
      · subst hp
        exact hn.1
      · exact ih s1 hn.2 hdone p hp

theorem runRows_all_skip (srid : Nat) (http : Nat → PostResult) (rows : List Row) :
    ∀ (s : LoopState), (∀ row ∈ rows, blank row.geomarkURL = false) →
      runRows srid http s rows = (s, rows.map (fun r => (r, false)), none) := by
  induction rows with
  | nil => intro s _; simp [runRows]
  | cons hd tl ih =>
    intro s hall
    have hhd : blank hd.geomarkURL = false := hall hd (by simp)
    have htl : ∀ row ∈ tl, blank row.geomarkURL = false := fun r hr => hall r (by simp [hr])
    simp [runRows, processRow_skip srid http s hd hhd, ih s htl]

theorem forall₂_map_false (R : Row × Bool → Row → Prop) (hR : ∀ r, R (r, false) r)
    (l : List Row) : List.Forall₂ R (l.map (fun r => (r, false))) l := by
  induction l with
  | nil => simp
  | cons hd tl ih => exact List.Forall₂.cons (hR hd) ih

theorem runRows_frame (srid : Nat) (http : Nat → PostResult) (rows : List Row) :
    ∀ (s : LoopState),
      List.Forall₂ (fun (p : Row × Bool) (inp : Row) =>
          p.1.geom = inp.geom ∧ p.1.attrs = inp.attrs)
        ((runRows srid http s rows).2.1) rows := by
  induction rows with
  | nil => intro s; simp [runRows]
  | cons hd tl ih =>
    intro s
    cases hp : processRow srid http s hd with
    | error e =>
      simp only [runRows, hp]
      exact List.Forall₂.cons ⟨rfl, rfl⟩
        (forall₂_map_false _ (fun r => ⟨rfl, rfl⟩) tl)
    | ok res =>
      obtain ⟨s1, row1, u⟩ := res
      simp only [runRows, hp]
      exact List.Forall₂.cons (processRow_frame srid http s hd s1 row1 u hp) (ih s1)


theorem blank_false_of_whitespaceBlank_false (v : Option String)
    (h : whitespaceBlank v = false) : blank v = false := by
  cases v with
  | none => simp [whitespaceBlank] at h
  | some s =>
    rw [blank_eq_false_iff]
    refine ⟨by simp, ?_, ?_⟩
    · intro he
      injection he with he2
      subst he2
      exact absurd h (by decide)
    · intro he
      injection he with he2
      subst he2
      exact absurd h (by decide)

/-- Claim C1 (code bug).  The claim states that a record with blank
destination and non-null geometry whose POST raises a transport failure
ends the run with exactly the fixed failure message and that no
status-code or resolved-URL inspection happens for it afterward.  The
script instead falls through to `if r.status_code == 200` on whatever `r`
is bound to: here record 1's POST succeeds with a resolved URL and record
2's POST raises, yet record 2 ends the run holding record 1's URL — the
stale response was inspected and its URL written over the failure
marker. -/
theorem C1_transport_failure_falls_through_to_stale_status :
    (add_geomark_url 3005
        (fun n => if n = 0 then
            PostResult.ok 200 "https://apps.gov.bc.ca/pub/geomark/geomarks/gm-ABC"
          else PostResult.exn)
        [⟨none, some "POINT (1 2)", []⟩, ⟨none, some "POINT (3 4)", []⟩]).2.1.map
        (fun p => p.1.geomarkURL) =
      [some "https://apps.gov.bc.ca/pub/geomark/geomarks/gm-ABC",
       some "https://apps.gov.bc.ca/pub/geomark/geomarks/gm-ABC"] ∧
    ("https://apps.gov.bc.ca/pub/geomark/geomarks/gm-ABC" : String) ≠ requestFailedMsg := by
  decide

/-- Claim C2 (code bug).  The claim states that every record-level failure
is recorded in the destination field and never raised to the caller.  But
when the very first POST of a run raises, `r` has never been bound, the
fall-through status check raises `NameError`, the record's outcome is not
persisted (`updateRow` never runs for it), and the exception aborts the
run. -/
theorem C2_first_record_transport_failure_aborts_run :
    add_geomark_url 3005 (fun _ => PostResult.exn) [⟨none, some "POINT (1 2)", []⟩] =
      (initState, [(⟨none, some "POINT (1 2)", []⟩, false)],
        some "NameError: name r is not defined") := by
  decide

/-- Claim C3, counterexample.  The claim says a record is attempted iff
its destination is null, empty, or whitespace-only.  The two-space string
is whitespace-only, yet the script's test `exist_url is None or exist_url
in ["", " "]` does not match it: the record is skipped untouched and
`updateRow` is not invoked. -/
theorem C3_whitespace_only_destination_is_skipped :
    whitespaceBlank (some "  ") = true ∧
    processRow 3005 (fun _ => PostResult.exn) initState ⟨some "  ", some "POINT (1 2)", []⟩ =
      .ok (initState, ⟨some "  ", some "POINT (1 2)", []⟩, false) := by
  constructor
  · decide
  · rfl

/-- Claim C3, amended.  A record is attempted (i.e. not returned untouched
and un-updated) iff its destination value is null, the empty string, or
the single-space string; every other value — including other
whitespace-only strings — is skipped. -/
theorem C3_attempted_iff_none_empty_or_single_space (srid : Nat)
    (http : Nat → PostResult) (s : LoopState) (row : Row) :
    processRow srid http s row = .ok (s, row, false) ↔
      row.geomarkURL ≠ none ∧ row.geomarkURL ≠ some "" ∧ row.geomarkURL ≠ some " " := by
  rw [← blank_eq_false_iff]
  constructor
  · intro h
    cases hb : blank row.geomarkURL with
    | false => rfl
    | true =>
      exfalso
      cases hg : row.geom with
      | none =>
        rw [processRow_nullgeom srid http s row hb hg] at h
        simp at h
      | some w =>
        cases hr : http s.reqCount with
        | ok code url =>
          rw [processRow_post_ok srid http s row w code url hb hg hr] at h
          simp at h
        | exn =>
          cases hv : s.rvar with
          | none =>
            rw [processRow_post_exn_unbound srid http s row w hb hg hr hv] at h
            simp at h
          | some r =>
            rw [processRow_post_exn_stale srid http s row w r hb hg hr hv] at h
            simp at h
  · intro h
    exact processRow_skip srid http s row h


/-- Witness for the amended claim C3 at a concrete record. -/
theorem C3_witness :
    processRow 0 (fun _ => PostResult.exn) initState ⟨some "done", none, []⟩ =
      .ok (initState, ⟨some "done", none, []⟩, false) :=
  (C3_attempted_iff_none_empty_or_single_space 0 (fun _ => PostResult.exn) initState
    ⟨some "done", none, []⟩).2 ⟨by decide, by decide, by decide⟩

/-- Claim C4 (confirmed).  A record whose destination holds a non-blank
value (some character of it is not whitespace) is returned by the run with
exactly its input value, and `updateRow` is never invoked for it — whatever
the oracle does and whether or not the run aborts. -/
theorem C4_nonblank_destination_untouched (srid : Nat) (http : Nat → PostResult)
    (rows : List Row) (i : Nat) (row : Row)
    (hget : rows[i]? = some row)
    (hnb : whitespaceBlank row.geomarkURL = false) :
    ((add_geomark_url srid http rows).2.1)[i]? = some (row, false) :=
  runRows_skip_getElem srid http rows initState i row hget
    (blank_false_of_whitespaceBlank_false row.geomarkURL hnb)

/-- Witness for claim C4 at a concrete one-record dataset. -/
theorem C4_witness :
    ([(⟨some "x", none, []⟩ : Row)][0]? = some (⟨some "x", none, []⟩ : Row)) ∧
    whitespaceBlank (some "x") = false ∧
    ((add_geomark_url 0 (fun _ => PostResult.exn) [⟨some "x", none, []⟩]).2.1)[0]? =
      some ((⟨some "x", none, []⟩ : Row), false) :=
  ⟨by decide, by decide,
    C4_nonblank_destination_untouched 0 (fun _ => PostResult.exn)
      [⟨some "x", none, []⟩] 0 ⟨some "x", none, []⟩ (by decide) (by decide)⟩

/-- Claim C5 (confirmed).  In a run that completes, a record with blank
destination and null geometry ends the run with destination exactly
`Null geometry` (and `updateRow` invoked); moreover processing such a
record leaves the loop state — in particular the HTTP request counter —
unchanged, i.e. no request is made for it. -/
theorem C5_null_geometry_marker (srid : Nat) (http : Nat → PostResult)
    (rows : List Row) (i : Nat) (row : Row)
    (hdone : (add_geomark_url srid http rows).2.2 = none)
    (hget : rows[i]? = some row)
    (hb : blank row.geomarkURL = true)
    (hg : row.geom = none) :
    ((add_geomark_url srid http rows).2.1)[i]? =
      some ({ row with geomarkURL := some nullGeometryMsg }, true) ∧
    ∀ s : LoopState, processRow srid http s row =
      .ok (s, { row with geomarkURL := some nullGeometryMsg }, true) :=
  ⟨runRows_const_getElem srid http row { row with geomarkURL := some nullGeometryMsg } true
      (fun t => processRow_nullgeom srid http t row hb hg) rows initState i hget hdone,
   fun s => processRow_nullgeom srid http s row hb hg⟩

/-- Witness for claim C5 at a concrete one-record dataset. -/
theorem C5_witness :
    (add_geomark_url 0 (fun _ => PostResult.exn) [⟨none, none, ["a"]⟩]).2.2 = none ∧
    ((add_geomark_url 0 (fun _ => PostResult.exn) [⟨none, none, ["a"]⟩]).2.1)[0]? =
      some (⟨some nullGeometryMsg, none, ["a"]⟩, true) :=
  ⟨by decide,
    ((C5_null_geometry_marker 0 (fun _ => PostResult.exn) [⟨none, none, ["a"]⟩] 0
      ⟨none, none, ["a"]⟩ (by decide) (by decide) rfl rfl).1)⟩

/-- Claim C6 (confirmed).  For a blank record with geometry whose POST
returns status 200: if the resolved URL equals the fixed endpoint the
destination becomes `Could not create Geomark URL for this geometry` and
`update_count` is unchanged; otherwise the destination becomes the
resolved URL verbatim and `update_count` increases by one. -/
theorem C6_http_200_resolved_url (srid : Nat) (http : Nat → PostResult)
    (s : LoopState) (row : Row) (w url : String)
    (hb : blank row.geomarkURL = true)
    (hg : row.geom = some w)
    (hr : http s.reqCount = PostResult.ok 200 url) :
    (url = post_url →
      processRow srid http s row =
        .ok (⟨some ⟨200, url⟩, s.update_count, s.reqCount + 1⟩,
          { row with geomarkURL := some couldNotCreateMsg }, true)) ∧
    (url ≠ post_url →
      processRow srid http s row =
        .ok (⟨some ⟨200, url⟩, s.update_count + 1, s.reqCount + 1⟩,
          { row with geomarkURL := some url }, true)) := by
  have h := processRow_post_ok srid http s row w 200 url hb hg hr
  constructor
  · intro he
    rw [h]
    simp [statusBranch, he]
  · intro hne
    rw [h]
    simp [statusBranch, hne]

/-- Witness for claim C6: a 200 response with a redirected URL. -/
theorem C6_witness :
    processRow 3005 (fun _ => PostResult.ok 200 "https://apps.gov.bc.ca/pub/geomark/geomarks/gm-XYZ")
      initState ⟨none, some "POINT (1 2)", []⟩ =
      .ok (⟨some ⟨200, "https://apps.gov.bc.ca/pub/geomark/geomarks/gm-XYZ"⟩, 1, 1⟩,
        { geomarkURL := some "https://apps.gov.bc.ca/pub/geomark/geomarks/gm-XYZ",
          geom := some "POINT (1 2)", attrs := [] }, true) :=
  (C6_http_200_resolved_url 3005
      (fun _ => PostResult.ok 200 "https://apps.gov.bc.ca/pub/geomark/geomarks/gm-XYZ")
      initState ⟨none, some "POINT (1 2)", []⟩ "POINT (1 2)"
      "https://apps.gov.bc.ca/pub/geomark/geomarks/gm-XYZ" rfl rfl rfl).2 (by decide)

/-- Claim C7 (confirmed).  For a blank record with geometry whose POST
returns a status other than 200, the destination becomes the message
`Geomark Web Service returned status code <code>; try running the tool
again` with the literal code interpolated; for code 500 that string is
spelled out exactly as the spec gives it. -/
theorem C7_non_200_status_message (srid : Nat) (http : Nat → PostResult)
    (s : LoopState) (row : Row) (w : String) (code : Nat) (url : String)
    (hb : blank row.geomarkURL = true)
    (hg : row.geom = some w)
    (hr : http s.reqCount = PostResult.ok code url)
    (hc : code ≠ 200) :
    processRow srid http s row =
      .ok (⟨some ⟨code, url⟩, s.update_count, s.reqCount + 1⟩,
        { row with geomarkURL := some (statusCodeMsg code) }, true) ∧
    statusCodeMsg 500 =
      "Geomark Web Service returned status code 500; try running the tool again" := by
  refine ⟨?_, by decide⟩
  rw [processRow_post_ok srid http s row w code url hb hg hr]
  simp [statusBranch, hc]

/-- Witness for claim C7 at status 500. -/
theorem C7_witness :
    processRow 3005 (fun _ => PostResult.ok 500 "https://apps.gov.bc.ca/pub/geomark/geomarks/new")
      initState ⟨some "", some "POINT (1 2)", []⟩ =
      .ok (⟨some ⟨500, "https://apps.gov.bc.ca/pub/geomark/geomarks/new"⟩, 0, 1⟩,
        { geomarkURL := some (statusCodeMsg 500), geom := some "POINT (1 2)", attrs := [] },
        true) :=
  (C7_non_200_status_message 3005
      (fun _ => PostResult.ok 500 "https://apps.gov.bc.ca/pub/geomark/geomarks/new")
      initState ⟨some "", some "POINT (1 2)", []⟩ "POINT (1 2)" 500
      "https://apps.gov.bc.ca/pub/geomark/geomarks/new" rfl rfl rfl (by decide)).1

/-- Claim C8 (confirmed).  Field provisioning: when `GeomarkURL` is
already among the schema's field names nothing is added or altered; when
it is absent exactly one TEXT field of length 100 named `GeomarkURL` is
appended; and provisioning twice yields the same schema as provisioning
once. -/
theorem C8_field_provisioning_idempotent (schema : List Field) :
    ("GeomarkURL" ∈ schema.map Field.name → ensureGeomarkField schema = schema) ∧
    ("GeomarkURL" ∉ schema.map Field.name →
      ensureGeomarkField schema = schema ++ [⟨"GeomarkURL", "TEXT", 100⟩]) ∧
    ensureGeomarkField (ensureGeomarkField schema) = ensureGeomarkField schema := by
  refine ⟨fun h => by simp [ensureGeomarkField, h],
    fun h => by simp [ensureGeomarkField, h], ?_⟩
  by_cases h : "GeomarkURL" ∈ schema.map Field.name
  · simp [ensureGeomarkField, h]
  · simp [ensureGeomarkField, h]

/-- Witness for claim C8 on a concrete schema lacking the field. -/
theorem C8_witness :
    ensureGeomarkField [⟨"OBJECTID", "OID", 4⟩] =
      [⟨"OBJECTID", "OID", 4⟩, ⟨"GeomarkURL", "TEXT", 100⟩] ∧
    ensureGeomarkField (ensureGeomarkField [⟨"OBJECTID", "OID", 4⟩]) =
      ensureGeomarkField [⟨"OBJECTID", "OID", 4⟩] :=
  ⟨(C8_field_provisioning_idempotent [⟨"OBJECTID", "OID", 4⟩]).2.1 (by decide),
   (C8_field_provisioning_idempotent [⟨"OBJECTID", "OID", 4⟩]).2.2⟩

/-- Claim C9 (confirmed).  If a run completes without an uncaught
exception against an oracle whose responses carry non-blank resolved URLs
(as `requests` guarantees), then every record leaves that run with a
non-blank destination, so a second run over the resulting dataset — under
any spatial reference and any oracle — performs zero HTTP requests. -/
theorem C9_second_run_no_requests (srid : Nat) (http : Nat → PostResult) (rows : List Row)
    (hurl : urlOk http)
    (hdone : (add_geomark_url srid http rows).2.2 = none) :
    ∀ (srid2 : Nat) (http2 : Nat → PostResult),
      (add_geomark_url srid2 http2
        (((add_geomark_url srid http rows).2.1).map Prod.fst)).1.reqCount = 0 := by
  intro srid2 http2
  have hs0 : stateOk initState := by intro r hr; simp [initState] at hr
  have hnb : ∀ row ∈ ((add_geomark_url srid http rows).2.1).map Prod.fst,
      blank row.geomarkURL = false := by
    intro row hrow
    rw [List.mem_map] at hrow
    obtain ⟨p, hp, hpe⟩ := hrow
    rw [← hpe]
    exact runRows_nonblank srid http hurl rows initState hs0 hdone p hp
  rw [add_geomark_url,
    runRows_all_skip srid2 http2 (((add_geomark_url srid http rows).2.1).map Prod.fst)
      initState hnb]
  rfl

/-- Witness for claim C9 on a concrete one-record dataset. -/
theorem C9_witness :
    (add_geomark_url 0 (fun _ => PostResult.exn) [⟨none, none, []⟩]).2.2 = none ∧
    (add_geomark_url 0 (fun _ => PostResult.exn)
      (((add_geomark_url 0 (fun _ => PostResult.exn) [⟨none, none, []⟩]).2.1).map
        Prod.fst)).1.reqCount = 0 :=
  ⟨by decide,
    C9_second_run_no_requests 0 (fun _ => PostResult.exn) [⟨none, none, []⟩]
      (fun _ _ _ h => PostResult.noConfusion h) (by decide) 0 (fun _ => PostResult.exn)⟩

/-- Claim C10 (confirmed).  The run writes only the `GeomarkURL`
attribute: for every record, the geometry and all other attributes of the
persisted row equal those of the input row, in skipped and updated
branches alike, whether or not the run aborts. -/
theorem C10_only_geomarkURL_written (srid : Nat) (http : Nat → PostResult) (rows : List Row) :
    List.Forall₂ (fun (p : Row × Bool) (inp : Row) =>
        p.1.geom = inp.geom ∧ p.1.attrs = inp.attrs)
      ((add_geomark_url srid http rows).2.1) rows :=
  runRows_frame srid http rows initState

end AddGeomark
